import Mathlib

/-!
Shallow embedding of the Job Portal API (Flask + SQLAlchemy) for verification.

Source files embedded here:
  src/src/models.py            - User / Task / Order table definitions
  src/src/auth.py              - register, login, me, _generate_token
  src/src/routes.py            - task and order CRUD with pagination
  src/src/gui/database_service.py - the local client facade (delete_task)

Modelling conventions:
  * Machine integers: ids, timestamps and counts are Nat; request integers
    that may be negative are Int.  The Order price column is Float in the
    source; the handlers perform no arithmetic on it (they only store it and
    compare against None), so it is modelled as Rat, which has exact
    literals and a decidable order.
  * A Python object attribute that can hold None is an Option.  The NOT NULL
    columns of models.py (User.username, User.email, User.password_hash,
    Task.title, Task.user_id, Order.product_name, Order.price,
    Order.user_id) are enforced by the database at commit time, not by the
    Python constructors, so Task and Order fields are Options at the object
    level and a commit check rejects null NOT NULL columns with the generic
    500 handler of app.py.
  * datetime values travel as ISO strings through the JSON layer and the
    handlers never compute with them, so created_at is a Nat (seconds) and
    due_date an Option String; isoformat on a stored value is the identity
    in this model.
  * request.get_json() returning None, or a falsy body such as the empty
    dict, is the `none` case of an Option payload; a present non-empty dict
    is `some` of a record whose fields are Option-valued (absent key = none).
  * werkzeug password hashing is modelled by its documented contract:
    check_password_hash (generate_password_hash p) q = (p = q).
  * A JWT is modelled as its payload plus the secret it was signed with;
    jwt.decode checks the signature (secret equality) and then the exp
    claim, exactly as PyJWT 2.8.0 does (expired iff exp <= now, leeway 0).
  * paginate is flask-sqlalchemy 3.x Pagination with error_out=False
    (the pinned SQLAlchemy 2.0.23 requires flask-sqlalchemy 3.x): a page
    below 1 is clamped to 1, a per_page below 1 is replaced by 20, items
    are offset/limit, pages is the ceiling of total over per_page.
-/

namespace JobPortal

/-- werkzeug generate_password_hash, modelled by its documented contract:
a one-way salted hash; all the handlers need is that verification succeeds
exactly for the original password. -/
def generate_password_hash (password : String) : String :=
  "pbkdf2:" ++ password

/-- werkzeug check_password_hash. -/
def check_password_hash (hash password : String) : Bool :=
  hash == "pbkdf2:" ++ password

/-- A JWT as produced by jwt.encode(payload, SECRET_KEY, HS256): the payload
fields plus the signing secret (possession of the matching secret stands for
a valid signature). -/
structure Token where
  user_id : Nat
  exp : Nat
  sig_secret : String
deriving Repr, DecidableEq

inductive JwtError where
  | expired
  | invalid
deriving Repr, DecidableEq

/-- jwt.decode(token, secret, HS256) at time `now` (PyJWT 2.8.0): signature
first, then the exp claim; expired iff exp <= now (leeway 0). -/
def jwt_decode (tok : Token) (secret : String) (now : Nat) : Except JwtError Nat :=
  if tok.sig_secret == secret then
    if tok.exp ≤ now then .error .expired else .ok tok.user_id
  else
    .error .invalid

/-- auth.py _generate_token: payload user_id plus exp = utcnow + 24 hours,
signed with the app secret.  Time is in seconds. -/
def _generate_token (user_id : Nat) (secret : String) (now : Nat) : Token :=
  { user_id := user_id, exp := now + 24 * 3600, sig_secret := secret }

/-- models.py User row.  username, email, password_hash are NOT NULL and the
register handler only ever stores present strings, so they are plain
String here; role defaults to "user", created_at to utcnow. -/
structure User where
  id : Nat
  username : String
  email : String
  password_hash : String
  role : String
  created_at : Nat
deriving Repr, DecidableEq

/-- models.py Task row at the Python object level: nullable attributes are
Options; title and user_id are NOT NULL in the schema but a handler can
still construct an object with them None (the commit then fails). -/
structure Task where
  id : Nat
  title : Option String
  description : Option String
  status : Option String
  due_date : Option String
  user_id : Option Nat
  created_at : Nat
deriving Repr, DecidableEq

/-- models.py Order row at the Python object level. -/
structure Order where
  id : Nat
  product_name : Option String
  quantity : Option Int
  price : Option Rat
  user_id : Option Nat
  created_at : Nat
deriving Repr, DecidableEq

/-- The database reachable through the API: the three tables plus the
autoincrement counters that assign primary keys at insert. -/
structure DB where
  users : List User
  tasks : List Task
  orders : List Order
  next_user_id : Nat
  next_task_id : Nat
  next_order_id : Nat
deriving Repr, DecidableEq

/-- NOT NULL check the database runs when a Task row is flushed
(models.py: title and user_id are nullable=False).  A violation surfaces as
IntegrityError, caught by the app.py 500 handler which rolls back. -/
def task_commit_ok (t : Task) : Bool :=
  t.title.isSome && t.user_id.isSome

/-- NOT NULL check for an Order row (product_name, price, user_id). -/
def order_commit_ok (o : Order) : Bool :=
  o.product_name.isSome && o.price.isSome && o.user_id.isSome

/-- Autoincrement invariant: every stored Task has a primary key below the
counter, so a fresh insert cannot collide with a stored row. -/
def DB.fresh_task_ids (db : DB) : Bool :=
  db.tasks.all (fun t => t.id < db.next_task_id)

/-- Autoincrement invariant for the orders table. -/
def DB.fresh_order_ids (db : DB) : Bool :=
  db.orders.all (fun o => o.id < db.next_order_id)

/-! ## auth.py -/

/-- JSON body of POST /auth/register; each key may be absent. -/
structure RegisterData where
  username : Option String
  email : Option String
  password : Option String
deriving Repr, DecidableEq

inductive RegisterResp where
  | missingBody
  | missingFields
  | conflict
  | created (token : Token)
deriving Repr, DecidableEq

def RegisterResp.status : RegisterResp → Nat
  | .missingBody => 400
  | .missingFields => 400
  | .conflict => 409
  | .created _ => 201

/-- auth.py register.  `not all([username, email, password])` is Python
truthiness: an absent key or an empty string fails the check. -/
def register (data : Option RegisterData) (secret : String) (now : Nat) (db : DB) :
    RegisterResp × DB :=
  match data with
  | none => (.missingBody, db)
  | some d =>
    match d.username, d.email, d.password with
    | some username, some email, some password =>
      if username == "" || email == "" || password == "" then
        (.missingFields, db)
      else if db.users.any (fun u => u.username == username || u.email == email) then
        (.conflict, db)
      else
        let user : User :=
          { id := db.next_user_id, username := username, email := email,
            password_hash := generate_password_hash password,
            role := "user", created_at := now }
        (.created (_generate_token user.id secret now),
         { db with users := db.users ++ [user], next_user_id := db.next_user_id + 1 })
    | _, _, _ => (.missingFields, db)

/-- JSON body of POST /auth/login. -/
structure LoginData where
  email : Option String
  password : Option String
deriving Repr, DecidableEq

inductive LoginResp where
  | missingBody
  | missingFields
  | invalidCredentials
  | success (token : Token)
deriving Repr, DecidableEq

def LoginResp.status : LoginResp → Nat
  | .missingBody => 400
  | .missingFields => 400
  | .invalidCredentials => 401
  | .success _ => 200

/-- auth.py login: first user with the given email, then hash check. -/
def login (data : Option LoginData) (secret : String) (now : Nat) (db : DB) :
    LoginResp × DB :=
  match data with
  | none => (.missingBody, db)
  | some d =>
    match d.email, d.password with
    | some email, some password =>
      if email == "" || password == "" then
        (.missingFields, db)
      else
        match db.users.find? (fun u => u.email == email) with
        | none => (.invalidCredentials, db)
        | some user =>
          if check_password_hash user.password_hash password then
            (.success (_generate_token user.id secret now), db)
          else
            (.invalidCredentials, db)
    | _, _ => (.missingFields, db)

/-- An Authorization header already split into scheme and carried token;
a missing header is `none`, a header whose scheme is not Bearer takes the
missing-token branch exactly as `startswith("Bearer ")` does. -/
structure AuthHeader where
  scheme : String
  token : Token
deriving Repr, DecidableEq

inductive MeResp where
  | missingToken
  | tokenExpired
  | invalidToken
  | userNotFound
  | profile (id : Nat) (username email role : String) (created_at : Nat)
deriving Repr, DecidableEq

def MeResp.status : MeResp → Nat
  | .missingToken => 401
  | .tokenExpired => 401
  | .invalidToken => 401
  | .userNotFound => 404
  | .profile _ _ _ _ _ => 200

/-- auth.py me: header check, jwt decode, user lookup, profile payload. -/
def me (auth : Option AuthHeader) (secret : String) (now : Nat) (db : DB) : MeResp :=
  match auth with
  | none => .missingToken
  | some h =>
    if h.scheme == "Bearer" then
      match jwt_decode h.token secret now with
      | .error .expired => .tokenExpired
      | .error .invalid => .invalidToken
      | .ok uid =>
        match db.users.find? (fun u => u.id == uid) with
        | none => .userNotFound
        | some u => .profile u.id u.username u.email u.role u.created_at
    else
      .missingToken

/-! ## routes.py -/

/-- routes.py task_to_dict; due_date is serialised with isoformat, the
identity on the ISO-string model of datetimes. -/
structure TaskDict where
  id : Nat
  title : Option String
  description : Option String
  status : Option String
  due_date : Option String
  user_id : Option Nat
  created_at : Nat
deriving Repr, DecidableEq

def task_to_dict (t : Task) : TaskDict :=
  { id := t.id, title := t.title, description := t.description,
    status := t.status, due_date := t.due_date, user_id := t.user_id,
    created_at := t.created_at }

/-- routes.py order_to_dict. -/
structure OrderDict where
  id : Nat
  product_name : Option String
  quantity : Option Int
  price : Option Rat
  user_id : Option Nat
  created_at : Nat
deriving Repr, DecidableEq

def order_to_dict (o : Order) : OrderDict :=
  { id := o.id, product_name := o.product_name, quantity := o.quantity,
    price := o.price, user_id := o.user_id, created_at := o.created_at }

/-- Query string of a list endpoint.  page and per_page arrive as raw
strings; user_id is kept as an already-parsed Option Nat (the route only
tests it for truthiness and hands it to an integer-column filter). -/
structure ListArgs where
  page : Option String
  per_page : Option String
  user_id : Option Nat
deriving Repr, DecidableEq

/-- Decimal digit run: none on the empty run or on any non-digit char. -/
def parse_nat_digits : List Char → Option Nat → Option Nat
  | [], acc => acc
  | c :: cs, acc =>
    if c.isDigit then
      parse_nat_digits cs (some ((acc.getD 0) * 10 + (c.toNat - 48)))
    else
      none

/-- Python int() on a plain decimal string: optional minus sign followed by
at least one digit; anything else raises, which args.get turns into the
default. -/
def parse_int (s : String) : Option Int :=
  match s.data with
  | '-' :: cs => (parse_nat_digits cs none).map (fun n => -(n : Int))
  | cs => (parse_nat_digits cs none).map (fun n => (n : Int))

/-- werkzeug request.args.get(key, default, type=int): a missing key or a
value int() rejects falls back to the default. -/
def args_get_int (arg : Option String) (default : Int) : Int :=
  match arg with
  | none => default
  | some s => (parse_int s).getD default

/-- Result of flask-sqlalchemy paginate. -/
structure Pagination (α : Type) where
  items : List α
  total : Nat
  pages : Nat
deriving Repr, DecidableEq

/-- flask-sqlalchemy 3.x Pagination with error_out=False and page/per_page
supplied: page below 1 becomes 1, per_page below 1 becomes 20, items are
offset (page-1)*per_page limit per_page, pages is the ceiling of
total / per_page (0 when the total is 0). -/
def paginate {α : Type} (xs : List α) (page per_page : Int) : Pagination α :=
  let p : Nat := if page < 1 then 1 else page.toNat
  let pp : Nat := if per_page < 1 then 20 else per_page.toNat
  { items := (xs.drop ((p - 1) * pp)).take pp
    total := xs.length
    pages := if xs.length = 0 then 0 else (xs.length + pp - 1) / pp }

/-- Body of the 200 response of GET /api/tasks.  current_page echoes the
raw parsed page value, not the clamped one (routes.py uses the local
`page` variable). -/
structure TaskListResp where
  tasks : List TaskDict
  total : Nat
  pages : Nat
  current_page : Int
deriving Repr, DecidableEq

/-- routes.py get_tasks. -/
def get_tasks (args : ListArgs) (db : DB) : TaskListResp × Nat :=
  let page := args_get_int args.page 1
  let per_page := args_get_int args.per_page 10
  let query :=
    match args.user_id with
    | some uid => db.tasks.filter (fun t => t.user_id == some uid)
    | none => db.tasks
  let pg := paginate query page per_page
  ({ tasks := pg.items.map task_to_dict, total := pg.total, pages := pg.pages,
     current_page := page }, 200)

/-- Body of the 200 response of GET /api/orders. -/
structure OrderListResp where
  orders : List OrderDict
  total : Nat
  pages : Nat
  current_page : Int
deriving Repr, DecidableEq

/-- routes.py get_orders. -/
def get_orders (args : ListArgs) (db : DB) : OrderListResp × Nat :=
  let page := args_get_int args.page 1
  let per_page := args_get_int args.per_page 10
  let query :=
    match args.user_id with
    | some uid => db.orders.filter (fun o => o.user_id == some uid)
    | none => db.orders
  let pg := paginate query page per_page
  ({ orders := pg.items.map order_to_dict, total := pg.total, pages := pg.pages,
     current_page := page }, 200)

/-- JSON body of POST /api/tasks.  status uses data.get with default
"pending", so an absent key and a null value differ (outer Option is key
presence); the other keys are read with plain data.get, for which absent
and null coincide. -/
structure CreateTaskData where
  title : Option String
  description : Option String
  status : Option (Option String)
  due_date : Option String
  user_id : Option Nat
deriving Repr, DecidableEq

inductive CreateTaskResp where
  | missingBody
  | missingTitle
  | serverError
  | created (task : TaskDict)
deriving Repr, DecidableEq

def CreateTaskResp.status : CreateTaskResp → Nat
  | .missingBody => 400
  | .missingTitle => 400
  | .serverError => 500
  | .created _ => 201

/-- routes.py create_task: only the title is validated (Python truthiness);
user_id is taken from the body unchecked, so a missing owner reaches the
database and fails the NOT NULL constraint, which the app.py handler turns
into a 500 after rollback. -/
def create_task (data : Option CreateTaskData) (now : Nat) (db : DB) :
    CreateTaskResp × DB :=
  match data with
  | none => (.missingBody, db)
  | some d =>
    match d.title with
    | none => (.missingTitle, db)
    | some title =>
      if title == "" then
        (.missingTitle, db)
      else
        let t : Task :=
          { id := db.next_task_id, title := some title,
            description := d.description,
            status := match d.status with | none => some "pending" | some v => v,
            due_date := d.due_date, user_id := d.user_id, created_at := now }
        if task_commit_ok t then
          (.created (task_to_dict t),
           { db with tasks := db.tasks ++ [t], next_task_id := db.next_task_id + 1 })
        else
          (.serverError, db)

inductive GetTaskResp where
  | notFound
  | found (task : TaskDict)
deriving Repr, DecidableEq

def GetTaskResp.status : GetTaskResp → Nat
  | .notFound => 404
  | .found _ => 200

/-- routes.py get_task: Task.query.get_or_404. -/
def get_task (task_id : Nat) (db : DB) : GetTaskResp :=
  match db.tasks.find? (fun t => t.id == task_id) with
  | none => .notFound
  | some t => .found (task_to_dict t)

/-- JSON body of PUT /api/tasks/id: the handler distinguishes key presence
(`attr in data`) from the value, so every field is presence over a possibly
null value. -/
structure UpdateTaskData where
  title : Option (Option String)
  description : Option (Option String)
  status : Option (Option String)
  due_date : Option (Option String)
  user_id : Option (Option Nat)
deriving Repr, DecidableEq

/-- The setattr loop of routes.py update_task: each of the five listed
attributes is overwritten when its key is present; id and created_at are
never in the list. -/
def apply_task_update (d : UpdateTaskData) (t : Task) : Task :=
  { t with
    title := d.title.getD t.title,
    description := d.description.getD t.description,
    status := d.status.getD t.status,
    due_date := d.due_date.getD t.due_date,
    user_id := d.user_id.getD t.user_id }

inductive UpdateTaskResp where
  | notFound
  | missingBody
  | serverError
  | updated (task : TaskDict)
deriving Repr, DecidableEq

def UpdateTaskResp.status : UpdateTaskResp → Nat
  | .notFound => 404
  | .missingBody => 400
  | .serverError => 500
  | .updated _ => 200

/-- Replace the first element satisfying p by its image under f: the ORM
mutates the single row fetched by primary key. -/
def update_first {α : Type} (p : α → Bool) (f : α → α) : List α → List α
  | [] => []
  | x :: xs => if p x then f x :: xs else x :: update_first p f xs

/-- routes.py update_task. -/
def update_task (task_id : Nat) (data : Option UpdateTaskData) (db : DB) :
    UpdateTaskResp × DB :=
  match db.tasks.find? (fun t => t.id == task_id) with
  | none => (.notFound, db)
  | some t =>
    match data with
    | none => (.missingBody, db)
    | some d =>
      let t' := apply_task_update d t
      if task_commit_ok t' then
        (.updated (task_to_dict t'),
         { db with tasks := update_first (fun x => x.id == task_id) (apply_task_update d) db.tasks })
      else
        (.serverError, db)

inductive DeleteResp where
  | notFound
  | deleted
deriving Repr, DecidableEq

def DeleteResp.status : DeleteResp → Nat
  | .notFound => 404
  | .deleted => 200

/-- routes.py delete_task: fetch by primary key or 404, then delete.  No
caller identity is involved anywhere in the route. -/
def delete_task (task_id : Nat) (db : DB) : DeleteResp × DB :=
  match db.tasks.find? (fun t => t.id == task_id) with
  | none => (.notFound, db)
  | some _ =>
    (.deleted, { db with tasks := db.tasks.eraseP (fun t => t.id == task_id) })

/-- JSON body of POST /api/orders; quantity uses data.get with default 1. -/
structure CreateOrderData where
  product_name : Option String
  quantity : Option (Option Int)
  price : Option Rat
  user_id : Option Nat
deriving Repr, DecidableEq

inductive CreateOrderResp where
  | missingBody
  | missingFields
  | serverError
  | created (order : OrderDict)
deriving Repr, DecidableEq

def CreateOrderResp.status : CreateOrderResp → Nat
  | .missingBody => 400
  | .missingFields => 400
  | .serverError => 500
  | .created _ => 201

/-- routes.py create_order: product_name by truthiness, price only against
None (zero and negative prices pass); user_id unchecked as in create_task. -/
def create_order (data : Option CreateOrderData) (now : Nat) (db : DB) :
    CreateOrderResp × DB :=
  match data with
  | none => (.missingBody, db)
  | some d =>
    match d.product_name, d.price with
    | some product_name, some price =>
      if product_name == "" then
        (.missingFields, db)
      else
        let o : Order :=
          { id := db.next_order_id, product_name := some product_name,
            quantity := match d.quantity with | none => some 1 | some v => v,
            price := some price, user_id := d.user_id, created_at := now }
        if order_commit_ok o then
          (.created (order_to_dict o),
           { db with orders := db.orders ++ [o], next_order_id := db.next_order_id + 1 })
        else
          (.serverError, db)
    | _, _ => (.missingFields, db)

inductive GetOrderResp where
  | notFound
  | found (order : OrderDict)
deriving Repr, DecidableEq

def GetOrderResp.status : GetOrderResp → Nat
  | .notFound => 404
  | .found _ => 200

/-- routes.py get_order. -/
def get_order (order_id : Nat) (db : DB) : GetOrderResp :=
  match db.orders.find? (fun o => o.id == order_id) with
  | none => .notFound
  | some o => .found (order_to_dict o)

/-- JSON body of PUT /api/orders/id. -/
structure UpdateOrderData where
  product_name : Option (Option String)
  quantity : Option (Option Int)
  price : Option (Option Rat)
  user_id : Option (Option Nat)
deriving Repr, DecidableEq

/-- The setattr loop of routes.py update_order. -/
def apply_order_update (d : UpdateOrderData) (o : Order) : Order :=
  { o with
    product_name := d.product_name.getD o.product_name,
    quantity := d.quantity.getD o.quantity,
    price := d.price.getD o.price,
    user_id := d.user_id.getD o.user_id }

inductive UpdateOrderResp where
  | notFound
  | missingBody
  | serverError
  | updated (order : OrderDict)
deriving Repr, DecidableEq

def UpdateOrderResp.status : UpdateOrderResp → Nat
  | .notFound => 404
  | .missingBody => 400
  | .serverError => 500
  | .updated _ => 200

/-- routes.py update_order. -/
def update_order (order_id : Nat) (data : Option UpdateOrderData) (db : DB) :
    UpdateOrderResp × DB :=
  match db.orders.find? (fun o => o.id == order_id) with
  | none => (.notFound, db)
  | some o =>
    match data with
    | none => (.missingBody, db)
    | some d =>
      let o' := apply_order_update d o
      if order_commit_ok o' then
        (.updated (order_to_dict o'),
         { db with orders := update_first (fun x => x.id == order_id) (apply_order_update d) db.orders })
      else
        (.serverError, db)

/-! ## gui/database_service.py -/

/-- In-memory state of the local DatabaseService facade: its own task table
plus the logged-in user id held as instance state (None when logged out). -/
structure ServiceState where
  tasks : List Task
  current_user_id : Option Nat
deriving Repr, DecidableEq

namespace DatabaseService

/-- database_service.py delete_task: fetch by primary key; delete and
return True only when the row exists and its user_id equals the logged-in
user id (Python == between the stored int and Optional current id);
otherwise return False and leave the table alone. -/
def delete_task (s : ServiceState) (task_id : Nat) : Bool × ServiceState :=
  match s.tasks.find? (fun t => t.id == task_id) with
  | none => (false, s)
  | some t =>
    if t.user_id == s.current_user_id then
      (true, { s with tasks := s.tasks.eraseP (fun x => x.id == task_id) })
    else
      (false, s)

end DatabaseService

/-! ## Fixtures for concrete witnesses -/

/-- Empty database, counters at 1 (autoincrement starts at 1). -/
def db0 : DB :=
  { users := [], tasks := [], orders := [], next_user_id := 1,
    next_task_id := 1, next_order_id := 1 }

/-! ## Theorems -/

/-- C1: a register request carrying username, email and password is answered
with Conflict (409) and an unchanged user table when some stored user already
has that username or that email; otherwise a new user whose credential is the
hash of the supplied password is appended, and a token for the new user id is
returned with status 201. -/
theorem register_conflict_or_creates (username email password secret : String)
    (now : Nat) (db : DB)
    (hu : username ≠ "") (he : email ≠ "") (hp : password ≠ "") :
    (db.users.any (fun u => u.username == username || u.email == email) = true →
      register (some ⟨some username, some email, some password⟩) secret now db
          = (RegisterResp.conflict, db) ∧
      RegisterResp.conflict.status = 409) ∧
    (db.users.any (fun u => u.username == username || u.email == email) = false →
      ∃ newUser : User,
        (register (some ⟨some username, some email, some password⟩) secret now db).2.users
            = db.users ++ [newUser] ∧
        newUser.username = username ∧ newUser.email = email ∧
        newUser.password_hash = generate_password_hash password ∧
        (register (some ⟨some username, some email, some password⟩) secret now db).1
            = RegisterResp.created (_generate_token newUser.id secret now) ∧
        (RegisterResp.created (_generate_token newUser.id secret now)).status = 201) := by
  have hu' : (username == "") = false := by simpa using hu
  have he' : (email == "") = false := by simpa using he
  have hp' : (password == "") = false := by simpa using hp
  constructor
  · intro hc
    refine ⟨?_, rfl⟩
    simp [register, hu', he', hp', hc]
  · intro hc
    refine ⟨{ id := db.next_user_id, username := username, email := email,
              password_hash := generate_password_hash password,
              role := "user", created_at := now }, ?_, rfl, rfl, rfl, ?_, rfl⟩
    · simp [register, hu', he', hp', hc]
    · simp [register, hu', he', hp', hc]

/-- C1 witness: on the empty database, registering alice succeeds as the
theorem states. -/
theorem register_conflict_or_creates_witness :
    ∃ newUser : User,
      (register (some ⟨some "alice", some "a@x.com", some "pw1"⟩) "key" 0 db0).2.users
          = db0.users ++ [newUser] ∧
      newUser.username = "alice" ∧ newUser.email = "a@x.com" ∧
      newUser.password_hash = generate_password_hash "pw1" ∧
      (register (some ⟨some "alice", some "a@x.com", some "pw1"⟩) "key" 0 db0).1
          = RegisterResp.created (_generate_token newUser.id "key" 0) ∧
      (RegisterResp.created (_generate_token newUser.id "key" 0)).status = 201 :=
  (register_conflict_or_creates "alice" "a@x.com" "pw1" "key" 0 db0
    (by decide) (by decide) (by decide)).2 (by decide)

/-- C2: a token issued for a user id embeds that id and an expiry 24 hours
(86400 seconds) after issuance; decoding with the signing secret strictly
before the expiry yields the same user id, and presenting the token to the
Me endpoint at any time strictly past the expiry is rejected as expired
with status 401. -/
theorem token_roundtrip_and_expiry (uid : Nat) (secret : String) (issued : Nat) :
    (_generate_token uid secret issued).user_id = uid ∧
    (_generate_token uid secret issued).exp = issued + 24 * 3600 ∧
    (∀ t, t < issued + 24 * 3600 →
      jwt_decode (_generate_token uid secret issued) secret t = Except.ok uid) ∧
    (∀ t, issued + 24 * 3600 < t → ∀ db : DB,
      me (some ⟨"Bearer", _generate_token uid secret issued⟩) secret t db
          = MeResp.tokenExpired ∧
      MeResp.tokenExpired.status = 401) := by
  refine ⟨rfl, rfl, ?_, ?_⟩
  · intro t ht
    have h : ¬ (issued + 24 * 3600 ≤ t) := by omega
    simp [jwt_decode, _generate_token, h]
  · intro t ht db
    have h : issued + 24 * 3600 ≤ t := by omega
    refine ⟨?_, rfl⟩
    simp [me, jwt_decode, _generate_token, h]

/-- C2 witness: the token issued at time 0 for user 7 decodes to 7 at time
100 and is rejected as expired by Me at time 100000. -/
theorem token_roundtrip_and_expiry_witness :
    jwt_decode (_generate_token 7 "key2" 0) "key2" 100 = Except.ok 7 ∧
    me (some ⟨"Bearer", _generate_token 7 "key2" 0⟩) "key2" 100000 db0
        = MeResp.tokenExpired ∧
    MeResp.tokenExpired.status = 401 := by
  have h := token_roundtrip_and_expiry 7 "key2" 0
  exact ⟨h.2.2.1 100 (by decide), (h.2.2.2 100000 (by decide) db0).1,
         (h.2.2.2 100000 (by decide) db0).2⟩

/-- An element not touched by the predicate survives update_first. -/
theorem mem_update_first {α : Type} (p : α → Bool) (f : α → α) (l : List α)
    (x : α) (hpx : p x = false) : x ∈ l → x ∈ update_first p f l := by
  induction l with
  | nil => intro hx; cases hx
  | cons y ys ih =>
    intro hx
    simp only [update_first]
    rcases List.mem_cons.mp hx with hxy | hxys
    · subst hxy
      rw [if_neg (by simp [hpx])]
      exact List.mem_cons_self x (update_first p f ys)
    · by_cases hpy : p y = true
      · rw [if_pos hpy]
        exact List.mem_cons_of_mem _ hxys
      · rw [if_neg hpy]
        exact List.mem_cons_of_mem _ (ih hxys)

/-- C3: updating a task by id overwrites exactly the fields whose keys the
request supplies (with genuine, non-null values for the NOT NULL columns
title and user_id), every unsupplied field as well as id and created_at
keeps its prior value, untouched rows survive unchanged, and an id with no
matching task yields NotFound (404) with the store unmodified. -/
theorem update_task_partial_frame (task_id : Nat) (d : UpdateTaskData) (db : DB) :
    (db.tasks.find? (fun t => t.id == task_id) = none →
      update_task task_id (some d) db = (UpdateTaskResp.notFound, db) ∧
      UpdateTaskResp.notFound.status = 404) ∧
    (∀ t, db.tasks.find? (fun t => t.id == task_id) = some t →
      task_commit_ok t = true →
      d.title ≠ some none → d.user_id ≠ some none →
      (update_task task_id (some d) db).1
          = UpdateTaskResp.updated (task_to_dict (apply_task_update d t)) ∧
      (UpdateTaskResp.updated (task_to_dict (apply_task_update d t))).status = 200 ∧
      (update_task task_id (some d) db).2.tasks
          = update_first (fun x => x.id == task_id) (apply_task_update d) db.tasks ∧
      (apply_task_update d t).id = t.id ∧
      (apply_task_update d t).created_at = t.created_at ∧
      (d.title = none → (apply_task_update d t).title = t.title) ∧
      (∀ v, d.title = some v → (apply_task_update d t).title = v) ∧
      (d.description = none → (apply_task_update d t).description = t.description) ∧
      (∀ v, d.description = some v → (apply_task_update d t).description = v) ∧
      (d.status = none → (apply_task_update d t).status = t.status) ∧
      (∀ v, d.status = some v → (apply_task_update d t).status = v) ∧
      (d.due_date = none → (apply_task_update d t).due_date = t.due_date) ∧
      (∀ v, d.due_date = some v → (apply_task_update d t).due_date = v) ∧
      (d.user_id = none → (apply_task_update d t).user_id = t.user_id) ∧
      (∀ v, d.user_id = some v → (apply_task_update d t).user_id = v) ∧
      (∀ u ∈ db.tasks, u.id ≠ task_id → u ∈ (update_task task_id (some d) db).2.tasks)) := by
  constructor
  · intro hn
    exact ⟨by simp [update_task, hn], rfl⟩
  · intro t hf hok hti hui
    rw [task_commit_ok, Bool.and_eq_true] at hok
    have hcommit : task_commit_ok (apply_task_update d t) = true := by
      rw [task_commit_ok, Bool.and_eq_true]
      constructor
      · cases hdt : d.title with
        | none => simpa [apply_task_update, hdt] using hok.1
        | some v =>
          have hv : v ≠ none := fun hv => hti (hv ▸ hdt)
          simpa [apply_task_update, hdt] using Option.ne_none_iff_isSome.mp hv
      · cases hdu : d.user_id with
        | none => simpa [apply_task_update, hdu] using hok.2
        | some v =>
          have hv : v ≠ none := fun hv => hui (hv ▸ hdu)
          simpa [apply_task_update, hdu] using Option.ne_none_iff_isSome.mp hv
    refine ⟨by simp [update_task, hf, hcommit], rfl,
            by simp [update_task, hf, hcommit], rfl, rfl,
            ?_, ?_, ?_, ?_, ?_, ?_, ?_, ?_, ?_, ?_, ?_⟩
    · intro h; simp [apply_task_update, h]
    · intro v h; simp [apply_task_update, h]
    · intro h; simp [apply_task_update, h]
    · intro v h; simp [apply_task_update, h]
    · intro h; simp [apply_task_update, h]
    · intro v h; simp [apply_task_update, h]
    · intro h; simp [apply_task_update, h]
    · intro v h; simp [apply_task_update, h]
    · intro h; simp [apply_task_update, h]
    · intro v h; simp [apply_task_update, h]
    · intro u hu hne
      have : (update_task task_id (some d) db).2.tasks
          = update_first (fun x => x.id == task_id) (apply_task_update d) db.tasks := by
        simp [update_task, hf, hcommit]
      rw [this]
      exact mem_update_first _ _ _ u (by simpa using hne) hu

def task1 : Task :=
  { id := 1, title := some "old title", description := some "desc",
    status := some "pending", due_date := none, user_id := some 1, created_at := 5 }

def dbT : DB := { db0 with tasks := [task1], next_task_id := 2 }

def upd1 : UpdateTaskData :=
  { title := some (some "new title"), description := none, status := none,
    due_date := none, user_id := none }

/-- C3 witness: supplying only a title to the update of task 1 changes the
title and keeps description, status, due date, owner and created_at. -/
theorem update_task_partial_frame_witness :
    (update_task 1 (some upd1) dbT).1
        = UpdateTaskResp.updated (task_to_dict (apply_task_update upd1 task1)) ∧
    (apply_task_update upd1 task1).title = some "new title" ∧
    (apply_task_update upd1 task1).description = task1.description ∧
    (apply_task_update upd1 task1).status = task1.status ∧
    (apply_task_update upd1 task1).due_date = task1.due_date ∧
    (apply_task_update upd1 task1).user_id = task1.user_id ∧
    (apply_task_update upd1 task1).created_at = task1.created_at := by
  have h := (update_task_partial_frame 1 upd1 dbT).2 task1 (by decide) (by decide)
      (by decide) (by decide)
  exact ⟨h.1, h.2.2.2.2.2.2.1 (some "new title") rfl, h.2.2.2.2.2.2.2.1 rfl,
         h.2.2.2.2.2.2.2.2.2.1 rfl, h.2.2.2.2.2.2.2.2.2.2.2.1 rfl,
         h.2.2.2.2.2.2.2.2.2.2.2.2.2.1 rfl, h.2.2.2.2.1⟩

/-- C4: listing tasks with page=1 and per_page=10 over a table of exactly
25 records (no owner filter, so all 25 match) answers 200 with total 25,
pages 3 (the ceiling of 25 / 10), current_page 1 and exactly 10 items. -/
theorem list_pagination_25 (db : DB) (h : db.tasks.length = 25) :
    (get_tasks ⟨some "1", some "10", none⟩ db).2 = 200 ∧
    (get_tasks ⟨some "1", some "10", none⟩ db).1.total = 25 ∧
    (get_tasks ⟨some "1", some "10", none⟩ db).1.pages = 3 ∧
    (get_tasks ⟨some "1", some "10", none⟩ db).1.current_page = 1 ∧
    (get_tasks ⟨some "1", some "10", none⟩ db).1.tasks.length = 10 := by
  have h1 : args_get_int (some "1") 1 = 1 := by decide
  have h10 : args_get_int (some "10") 10 = 10 := by decide
  refine ⟨rfl, ?_, ?_, ?_, ?_⟩
  · simp [get_tasks, paginate, h1, h10, h]
  · simp [get_tasks, paginate, h1, h10, h]
  · simp [get_tasks, h1]
  · simp [get_tasks, paginate, h1, h10, h]

def db25 : DB :=
  { db0 with tasks := (List.range 25).map (fun i => { task1 with id := i + 1 }),
             next_task_id := 26 }

/-- C4 witness: the concrete 25-row table paginates to 3 pages of which the
first holds 10 items. -/
theorem list_pagination_25_witness :
    db25.tasks.length = 25 ∧
    (get_tasks ⟨some "1", some "10", none⟩ db25).1.total = 25 ∧
    (get_tasks ⟨some "1", some "10", none⟩ db25).1.pages = 3 ∧
    (get_tasks ⟨some "1", some "10", none⟩ db25).1.current_page = 1 ∧
    (get_tasks ⟨some "1", some "10", none⟩ db25).1.tasks.length = 10 := by
  have hlen : db25.tasks.length = 25 := by simp [db25]
  have h := list_pagination_25 db25 hlen
  exact ⟨hlen, h.2.1, h.2.2.1, h.2.2.2.1, h.2.2.2.2⟩

/-- C7: a login request carrying a (truthy) email and password leaves the
database untouched, answers 401 exactly when no stored user has that email
or the password does not verify against the stored hash of the first such
user, and otherwise answers 200 with a token issued for that user id. -/
theorem login_auth_iff (email password secret : String) (now : Nat) (db : DB)
    (he : email ≠ "") (hp : password ≠ "") :
    (login (some ⟨some email, some password⟩) secret now db).2 = db ∧
    ((login (some ⟨some email, some password⟩) secret now db).1.status = 401 ↔
      ¬ ∃ u, db.users.find? (fun v => v.email == email) = some u ∧
             check_password_hash u.password_hash password = true) ∧
    (∀ u, db.users.find? (fun v => v.email == email) = some u →
      check_password_hash u.password_hash password = true →
      (login (some ⟨some email, some password⟩) secret now db).1
          = LoginResp.success (_generate_token u.id secret now) ∧
      (LoginResp.success (_generate_token u.id secret now)).status = 200) := by
  have he' : (email == "") = false := by simpa using he
  have hp' : (password == "") = false := by simpa using hp
  cases hf : db.users.find? (fun v => v.email == email) with
  | none =>
    refine ⟨by simp [login, he', hp', hf], ?_, ?_⟩
    · simp [login, he', hp', hf, LoginResp.status]
    · intro u hu
      cases hu
  | some u =>
    by_cases hc : check_password_hash u.password_hash password = true
    · refine ⟨by simp [login, he', hp', hf, hc], ?_, ?_⟩
      · simp only [login, he', hp', hf, hc, LoginResp.status]
        simp only [Bool.or_self, Bool.false_eq_true, if_false]
        constructor
        · intro h; cases h
        · intro h
          exact absurd ⟨u, rfl, hc⟩ h
      · intro v hv hcv
        cases hv
        exact ⟨by simp [login, he', hp', hf, hc], rfl⟩
    · have hc' : check_password_hash u.password_hash password = false :=
        Bool.not_eq_true _ ▸ Bool.eq_false_iff.mpr hc
      refine ⟨by simp [login, he', hp', hf, hc'], ?_, ?_⟩
      · simp only [login, he', hp', hf, hc', LoginResp.status]
        constructor
        · rintro - ⟨v, hv, hcv⟩
          cases hv
          exact hc hcv
        · intro _
          simp
      · intro v hv hcv
        cases hv
        exact absurd hcv hc

def user1 : User :=
  { id := 1, username := "alice", email := "a@x.com",
    password_hash := generate_password_hash "pw1", role := "user", created_at := 0 }

def dbU : DB := { db0 with users := [user1], next_user_id := 2 }

/-- C7 witness: against a table holding alice, the right password logs in
with a token for id 1 and the wrong password yields 401. -/
theorem login_auth_iff_witness :
    (login (some ⟨some "a@x.com", some "pw1"⟩) "key" 0 dbU).1
        = LoginResp.success (_generate_token 1 "key" 0) ∧
    (login (some ⟨some "a@x.com", some "bad"⟩) "key" 0 dbU).1.status = 401 := by
  have hf : dbU.users.find? (fun v => v.email == "a@x.com") = some user1 := by decide
  have h1 := ((login_auth_iff "a@x.com" "pw1" "key" 0 dbU (by decide) (by decide)).2.2
    user1 hf (by decide)).1
  have h2 := (login_auth_iff "a@x.com" "bad" "key" 0 dbU (by decide) (by decide)).2.1.mpr
  refine ⟨h1, h2 ?_⟩
  rintro ⟨u, hu, hcu⟩
  rw [hf] at hu
  cases hu
  exact absurd hcu (by decide)

/-- No stored task carries the fresh autoincrement id. -/
theorem fresh_task_find_none (db : DB) (h : db.fresh_task_ids = true) :
    db.tasks.find? (fun t => t.id == db.next_task_id) = none := by
  rw [List.find?_eq_none]
  intro t ht
  have := (List.all_eq_true.mp h) t ht
  simp only [decide_eq_true_eq] at this
  simp only [beq_iff_eq]
  omega

/-- No stored order carries the fresh autoincrement id. -/
theorem fresh_order_find_none (db : DB) (h : db.fresh_order_ids = true) :
    db.orders.find? (fun o => o.id == db.next_order_id) = none := by
  rw [List.find?_eq_none]
  intro o ho
  have := (List.all_eq_true.mp h) o ho
  simp only [decide_eq_true_eq] at this
  simp only [beq_iff_eq]
  omega

/-- C9: on a database whose autoincrement counters are fresh, successfully
creating a task (or an order) and immediately fetching the id of the
returned record yields exactly the record the create returned. -/
theorem create_then_get_roundtrip (db : DB) (now : Nat)
    (hT : db.fresh_task_ids = true) (hO : db.fresh_order_ids = true) :
    (∀ (title : String), title ≠ "" →
      ∀ (desc : Option String) (st : Option (Option String)) (dd : Option String)
        (uid : Nat) (dict : TaskDict),
      (create_task (some ⟨some title, desc, st, dd, some uid⟩) now db).1
          = CreateTaskResp.created dict →
      get_task dict.id (create_task (some ⟨some title, desc, st, dd, some uid⟩) now db).2
          = GetTaskResp.found dict) ∧
    (∀ (pn : String), pn ≠ "" →
      ∀ (q : Option (Option Int)) (pr : Rat) (uid : Nat) (dict : OrderDict),
      (create_order (some ⟨some pn, q, some pr, some uid⟩) now db).1
          = CreateOrderResp.created dict →
      get_order dict.id (create_order (some ⟨some pn, q, some pr, some uid⟩) now db).2
          = GetOrderResp.found dict) := by
  constructor
  · intro title htitle desc st dd uid dict hcreated
    have ht' : (title == "") = false := by simpa using htitle
    simp only [create_task, ht', Bool.false_eq_true, if_false, task_commit_ok,
      Option.isSome_some, Bool.and_self, if_true] at hcreated ⊢
    rw [CreateTaskResp.created.injEq] at hcreated
    subst hcreated
    simp only [get_task, task_to_dict, List.find?_append,
      fresh_task_find_none db hT, Option.none_or]
    rw [List.find?_cons_of_pos _ (by simp)]
  · intro pn hpn q pr uid dict hcreated
    have hp' : (pn == "") = false := by simpa using hpn
    simp only [create_order, hp', Bool.false_eq_true, if_false, order_commit_ok,
      Option.isSome_some, Bool.and_self, if_true] at hcreated ⊢
    rw [CreateOrderResp.created.injEq] at hcreated
    subst hcreated
    simp only [get_order, order_to_dict, List.find?_append,
      fresh_order_find_none db hO, Option.none_or]
    rw [List.find?_cons_of_pos _ (by simp)]

def t9 : Task :=
  { id := 1, title := some "task nine", description := none,
    status := some "pending", due_date := none, user_id := some 1, created_at := 3 }

def o9 : Order :=
  { id := 1, product_name := some "widget", quantity := some 1,
    price := some 5, user_id := some 1, created_at := 3 }

/-- C9 witness: creating a task and an order on the empty database and
re-fetching the returned ids gives back the returned records. -/
theorem create_then_get_roundtrip_witness :
    get_task (task_to_dict t9).id
        (create_task (some ⟨some "task nine", none, none, none, some 1⟩) 3 db0).2
        = GetTaskResp.found (task_to_dict t9) ∧
    get_order (order_to_dict o9).id
        (create_order (some ⟨some "widget", none, some 5, some 1⟩) 3 db0).2
        = GetOrderResp.found (order_to_dict o9) := by
  have h := create_then_get_roundtrip db0 3 (by decide) (by decide)
  exact ⟨h.1 "task nine" (by decide) none none none 1 (task_to_dict t9) (by decide),
         h.2 "widget" (by decide) none 5 1 (order_to_dict o9) (by decide)⟩

/-- C5 counterexample: a create-order request with price -1 succeeds with
status 201 and stores an order whose price is -1, which is negative; the
handlers never check the sign of the price. -/
theorem order_price_nonneg_counterexample :
    (create_order (some ⟨some "widget", none, some (-1), some 1⟩) 0 db0).1.status = 201 ∧
    ((create_order (some ⟨some "widget", none, some (-1), some 1⟩) 0 db0).2.orders.map
        Order.price) = [some (-1)] ∧
    ¬ ((0 : Rat) ≤ -1) := by
  exact ⟨by decide, by decide, by norm_num⟩

/-- C5 amended: a successful create-order or update-order stores exactly
the price the request supplied; presence (not None) is the only check on
the price, so nothing constrains its sign. -/
theorem order_price_passthrough (pn : String) (hpn : pn ≠ "")
    (q : Option (Option Int)) (pr : Rat) (uid : Nat) (now : Nat) (db : DB) :
    ((create_order (some ⟨some pn, q, some pr, some uid⟩) now db).1.status = 201 ∧
     ∃ o : Order, (create_order (some ⟨some pn, q, some pr, some uid⟩) now db).2.orders
         = db.orders ++ [o] ∧ o.price = some pr) ∧
    (∀ (order_id : Nat) (d : UpdateOrderData) (o : Order),
      db.orders.find? (fun x => x.id == order_id) = some o →
      order_commit_ok (apply_order_update d o) = true →
      d.price = some (some pr) →
      (update_order order_id (some d) db).1
          = UpdateOrderResp.updated (order_to_dict (apply_order_update d o)) ∧
      (apply_order_update d o).price = some pr) := by
  have hp' : (pn == "") = false := by simpa using hpn
  constructor
  · constructor
    · cases q <;> simp [create_order, hp', order_commit_ok, CreateOrderResp.status]
    · cases q with
      | none =>
        refine ⟨{ id := db.next_order_id, product_name := some pn, quantity := some 1,
                  price := some pr, user_id := some uid, created_at := now }, ?_, rfl⟩
        simp [create_order, hp', order_commit_ok]
      | some v =>
        refine ⟨{ id := db.next_order_id, product_name := some pn, quantity := v,
                  price := some pr, user_id := some uid, created_at := now }, ?_, rfl⟩
        simp [create_order, hp', order_commit_ok]
  · intro order_id d o hf hok hdp
    refine ⟨by simp [update_order, hf, hok], ?_⟩
    simp [apply_order_update, hdp]

def order1 : Order :=
  { id := 1, product_name := some "thing", quantity := some 1,
    price := some 10, user_id := some 1, created_at := 0 }

def dbO : DB := { db0 with orders := [order1], next_order_id := 2 }

def updPrice : UpdateOrderData :=
  { product_name := none, quantity := none, price := some (some (-2)), user_id := none }

/-- C5 amended witness: creating with price -2 stores -2, and updating the
stored order with price -2 stores -2. -/
theorem order_price_passthrough_witness :
    ((create_order (some ⟨some "widget", none, some (-2), some 1⟩) 0 dbO).1.status = 201 ∧
     ∃ o : Order, (create_order (some ⟨some "widget", none, some (-2), some 1⟩) 0 dbO).2.orders
         = dbO.orders ++ [o] ∧ o.price = some (-2)) ∧
    (update_order 1 (some updPrice) dbO).1
        = UpdateOrderResp.updated (order_to_dict (apply_order_update updPrice order1)) ∧
    (apply_order_update updPrice order1).price = some (-2) := by
  have h := order_price_passthrough "widget" (by decide) none (-2) 1 0 dbO
  have h2 := h.2 1 updPrice order1 (by decide) (by decide) rfl
  exact ⟨h.1, h2.1, h2.2⟩

/-- C6 counterexample: a create-task request whose only flaw is the missing
owning user reference is not rejected with 400; it reaches the persistence
layer and comes back as a 500 generic server error (nothing is stored). -/
theorem create_missing_owner_counterexample :
    (create_task (some ⟨some "a task", none, none, none, none⟩) 0 db0).1.status = 500 ∧
    (create_task (some ⟨some "a task", none, none, none, none⟩) 0 db0).1.status ≠ 400 ∧
    (create_task (some ⟨some "a task", none, none, none, none⟩) 0 db0).2 = db0 := by
  exact ⟨by decide, by decide, by decide⟩

/-- C6 amended: the create handlers validate only their own data fields
before touching persistence - title for Task, product_name and price for
Order - answering 400 with nothing stored when one is missing or falsy;
the owning user reference is not validated by any handler, and a request
without it fails at the persistence layer with a 500 generic error, also
storing nothing. -/
theorem create_validation_amended :
    (∀ (data : CreateTaskData) (now : Nat) (db : DB),
      (data.title = none ∨ data.title = some "") →
      create_task (some data) now db = (CreateTaskResp.missingTitle, db) ∧
      CreateTaskResp.missingTitle.status = 400) ∧
    (∀ (data : CreateOrderData) (now : Nat) (db : DB),
      (data.product_name = none ∨ data.product_name = some "" ∨ data.price = none) →
      create_order (some data) now db = (CreateOrderResp.missingFields, db) ∧
      CreateOrderResp.missingFields.status = 400) ∧
    (∀ (title : String), title ≠ "" →
      ∀ (desc : Option String) (st : Option (Option String)) (dd : Option String)
        (now : Nat) (db : DB),
      create_task (some ⟨some title, desc, st, dd, none⟩) now db
          = (CreateTaskResp.serverError, db) ∧
      CreateTaskResp.serverError.status = 500) ∧
    (∀ (pn : String), pn ≠ "" → ∀ (q : Option (Option Int)) (pr : Rat) (now : Nat) (db : DB),
      create_order (some ⟨some pn, q, some pr, none⟩) now db
          = (CreateOrderResp.serverError, db) ∧
      CreateOrderResp.serverError.status = 500) := by
  refine ⟨?_, ?_, ?_, ?_⟩
  · intro data now db h
    rcases h with h | h <;> exact ⟨by simp [create_task, h], rfl⟩
  · intro data now db h
    rcases h with h | h | h
    · cases hp : data.price <;> exact ⟨by simp [create_order, h, hp], rfl⟩
    · cases hp : data.price <;> exact ⟨by simp [create_order, h, hp], rfl⟩
    · cases hn : data.product_name <;> exact ⟨by simp [create_order, h, hn], rfl⟩
  · intro title htitle desc st dd now db
    have ht' : (title == "") = false := by simpa using htitle
    exact ⟨by simp [create_task, ht', task_commit_ok], rfl⟩
  · intro pn hpn q pr now db
    have hp' : (pn == "") = false := by simpa using hpn
    exact ⟨by simp [create_order, hp', order_commit_ok], rfl⟩

/-- C6 amended witness: one concrete instance of each branch. -/
theorem create_validation_amended_witness :
    create_task (some ⟨none, none, none, none, some 1⟩) 0 db0
        = (CreateTaskResp.missingTitle, db0) ∧
    create_order (some ⟨some "w", none, none, some 1⟩) 0 db0
        = (CreateOrderResp.missingFields, db0) ∧
    create_task (some ⟨some "a task", none, none, none, none⟩) 0 db0
        = (CreateTaskResp.serverError, db0) ∧
    create_order (some ⟨some "w", none, some 3, none⟩) 0 db0
        = (CreateOrderResp.serverError, db0) := by
  have h := create_validation_amended
  exact ⟨(h.1 ⟨none, none, none, none, some 1⟩ 0 db0 (Or.inl rfl)).1,
         (h.2.1 ⟨some "w", none, none, some 1⟩ 0 db0 (Or.inr (Or.inr rfl))).1,
         (h.2.2.1 "a task" (by decide) none none none 0 db0).1,
         (h.2.2.2 "w" (by decide) none 3 0 db0).1⟩

/-- C8 counterexample: a non-positive per_page is not defaulted to 10: with
per_page=0 over 25 stored tasks the paginator substitutes its own default
of 20 and the page holds 20 items, not 10. -/
theorem pagination_default_counterexample :
    args_get_int (some "0") 10 = 0 ∧
    (get_tasks ⟨some "1", some "0", none⟩ db25).1.tasks.length = 20 ∧
    (20 : Nat) ≠ 10 := by
  exact ⟨by decide, by decide, by decide⟩

/-- C8 amended: a page past the last one yields 200 with an empty item
list; an absent or non-numeric page/per_page falls back to the handler
defaults 1 and 10; a numeric non-positive value is instead handled by the
paginator, which clamps page below 1 to 1 but replaces per_page below 1
with its own default 20 (not 10), while current_page echoes the raw page
value. -/
theorem pagination_behaviour_amended :
    (∀ d : Int, args_get_int none d = d) ∧
    (args_get_int (some "abc") 1 = 1 ∧ args_get_int (some "abc") 10 = 10) ∧
    (∀ (db : DB) (sp spp : String) (p pp : Int),
      parse_int sp = some p → parse_int spp = some pp →
      1 ≤ p → 1 ≤ pp → db.tasks.length ≤ (p.toNat - 1) * pp.toNat →
      (get_tasks ⟨some sp, some spp, none⟩ db).2 = 200 ∧
      (get_tasks ⟨some sp, some spp, none⟩ db).1.tasks = []) ∧
    (∀ (db : DB) (sp spp : String) (p pp : Int),
      parse_int sp = some p → parse_int spp = some pp →
      p < 1 → pp < 1 →
      (get_tasks ⟨some sp, some spp, none⟩ db).1.tasks
          = (db.tasks.take 20).map task_to_dict ∧
      (get_tasks ⟨some sp, some spp, none⟩ db).1.current_page = p) := by
  refine ⟨fun d => rfl, ⟨by decide, by decide⟩, ?_, ?_⟩
  · intro db sp spp p pp hsp hspp hp hpp hlen
    have e1 : args_get_int (some sp) 1 = p := by simp [args_get_int, hsp]
    have e2 : args_get_int (some spp) 10 = pp := by simp [args_get_int, hspp]
    have hplt : ¬ (p < 1) := by omega
    have hpplt : ¬ (pp < 1) := by omega
    refine ⟨rfl, ?_⟩
    simp only [get_tasks, e1, e2, paginate, if_neg hplt, if_neg hpplt]
    rw [List.drop_eq_nil_of_le hlen]
    simp
  · intro db sp spp p pp hsp hspp hp hpp
    have e1 : args_get_int (some sp) 1 = p := by simp [args_get_int, hsp]
    have e2 : args_get_int (some spp) 10 = pp := by simp [args_get_int, hspp]
    constructor
    · simp only [get_tasks, e1, e2, paginate, if_pos hp, if_pos hpp]
      simp
    · simp [get_tasks, e1]

/-- C8 amended witness: page 9 of the 25-row table is empty with status
200, and page 0 with per_page -1 serves the first 20 rows while echoing
current_page 0. -/
theorem pagination_behaviour_amended_witness :
    ((get_tasks ⟨some "9", some "10", none⟩ db25).2 = 200 ∧
     (get_tasks ⟨some "9", some "10", none⟩ db25).1.tasks = []) ∧
    ((get_tasks ⟨some "0", some "-1", none⟩ db25).1.tasks
         = (db25.tasks.take 20).map task_to_dict ∧
     (get_tasks ⟨some "0", some "-1", none⟩ db25).1.current_page = 0) := by
  have h := pagination_behaviour_amended
  exact ⟨h.2.2.1 db25 "9" "10" 9 10 (by decide) (by decide) (by decide) (by decide)
           (by simp [db25]),
         h.2.2.2 db25 "0" "-1" 0 (-1) (by decide) (by decide) (by decide) (by decide)⟩

/-- C10: the local facade delete_task removes the row and returns True
exactly when a task with the given id exists and its owner equals the
logged-in user id; with no such task, an owner mismatch, or nobody logged
in it returns False and leaves the table unchanged.  The HTTP delete
route, by contrast, removes any existing task with no notion of a caller. -/
theorem service_delete_task_ownership (s : ServiceState) (task_id : Nat)
    (hwf : s.tasks.all (fun t => t.user_id.isSome) = true) :
    ((DatabaseService.delete_task s task_id).1 = true ↔
      ∃ t, s.tasks.find? (fun x => x.id == task_id) = some t ∧
           ∃ uid, s.current_user_id = some uid ∧ t.user_id = some uid) ∧
    ((DatabaseService.delete_task s task_id).1 = false →
      (DatabaseService.delete_task s task_id).2 = s) ∧
    ((DatabaseService.delete_task s task_id).1 = true →
      (DatabaseService.delete_task s task_id).2.tasks
          = s.tasks.eraseP (fun x => x.id == task_id) ∧
      (DatabaseService.delete_task s task_id).2.current_user_id = s.current_user_id) ∧
    (∀ (db : DB) (t : Task), db.tasks.find? (fun x => x.id == task_id) = some t →
      delete_task task_id db = (DeleteResp.deleted,
        { db with tasks := db.tasks.eraseP (fun x => x.id == task_id) }) ∧
      DeleteResp.deleted.status = 200) := by
  refine ⟨?_, ?_, ?_, fun db t hf => ⟨by simp [delete_task, hf], rfl⟩⟩
  · rcases hfind : s.tasks.find? (fun x => x.id == task_id) with - | t
    · have hd : DatabaseService.delete_task s task_id = (false, s) := by
        simp [DatabaseService.delete_task, hfind]
      rw [hd]
      constructor
      · intro h; cases h
      · rintro ⟨t, ht, -⟩
        rw [hfind] at ht
        cases ht
    · by_cases hu : (t.user_id == s.current_user_id) = true
      · have hd : DatabaseService.delete_task s task_id
            = (true, { s with tasks := s.tasks.eraseP (fun x => x.id == task_id) }) := by
          simp [DatabaseService.delete_task, hfind, hu]
        rw [hd]
        constructor
        · intro _
          have htm := List.mem_of_find?_eq_some hfind
          have hws := (List.all_eq_true.mp hwf) t htm
          rcases Option.isSome_iff_exists.mp (by simpa using hws) with ⟨uid, huid⟩
          exact ⟨t, hfind, uid, by rw [← beq_iff_eq.mp hu, huid], huid⟩
        · intro _; rfl
      · have hu' : (t.user_id == s.current_user_id) = false := by simpa using hu
        have hd : DatabaseService.delete_task s task_id = (false, s) := by
          simp [DatabaseService.delete_task, hfind, hu']
        rw [hd]
        constructor
        · intro h; cases h
        · rintro ⟨t', ht', uid, hcu, huid⟩
          rw [hfind] at ht'
          cases ht'
          rw [huid, hcu] at hu'
          simp at hu'
  · intro hfalse
    rcases hfind : s.tasks.find? (fun x => x.id == task_id) with - | t
    · have hd : DatabaseService.delete_task s task_id = (false, s) := by
        simp [DatabaseService.delete_task, hfind]
      rw [hd]
    · by_cases hu : (t.user_id == s.current_user_id) = true
      · have hd : DatabaseService.delete_task s task_id
            = (true, { s with tasks := s.tasks.eraseP (fun x => x.id == task_id) }) := by
          simp [DatabaseService.delete_task, hfind, hu]
        rw [hd] at hfalse
        simp at hfalse
      · have hu' : (t.user_id == s.current_user_id) = false := by simpa using hu
        have hd : DatabaseService.delete_task s task_id = (false, s) := by
          simp [DatabaseService.delete_task, hfind, hu']
        rw [hd]
  · intro htrue
    rcases hfind : s.tasks.find? (fun x => x.id == task_id) with - | t
    · have hd : DatabaseService.delete_task s task_id = (false, s) := by
        simp [DatabaseService.delete_task, hfind]
      rw [hd] at htrue
      simp at htrue
    · by_cases hu : (t.user_id == s.current_user_id) = true
      · have hd : DatabaseService.delete_task s task_id
            = (true, { s with tasks := s.tasks.eraseP (fun x => x.id == task_id) }) := by
          simp [DatabaseService.delete_task, hfind, hu]
        rw [hd]
        exact ⟨rfl, rfl⟩
      · have hu' : (t.user_id == s.current_user_id) = false := by simpa using hu
        have hd : DatabaseService.delete_task s task_id = (false, s) := by
          simp [DatabaseService.delete_task, hfind, hu']
        rw [hd] at htrue
        simp at htrue

def svc1 : ServiceState := { tasks := [task1], current_user_id := some 1 }

def svc2 : ServiceState := { tasks := [task1], current_user_id := none }

/-- C10 witness: the owner logged in deletes task 1 (True); logged out the
call returns False and changes nothing; the HTTP route deletes task 1 of
the same table with no caller at all. -/
theorem service_delete_task_ownership_witness :
    (DatabaseService.delete_task svc1 1).1 = true ∧
    (DatabaseService.delete_task svc2 1).1 = false ∧
    (DatabaseService.delete_task svc2 1).2 = svc2 ∧
    delete_task 1 dbT = (DeleteResp.deleted,
      { dbT with tasks := dbT.tasks.eraseP (fun x => x.id == 1) }) := by
  have h1 := service_delete_task_ownership svc1 1 (by decide)
  have h2 := service_delete_task_ownership svc2 1 (by decide)
  have htrue : (DatabaseService.delete_task svc1 1).1 = true :=
    h1.1.mpr ⟨task1, by decide, 1, rfl, by decide⟩
  have hfalse : (DatabaseService.delete_task svc2 1).1 = false := by
    rcases Bool.eq_false_or_eq_true (DatabaseService.delete_task svc2 1).1 with h | h
    · rcases h2.1.mp h with ⟨t, ht, uid, hcu, _⟩
      simp [svc2] at hcu
    · exact h
  exact ⟨htrue, hfalse, h2.2.1 hfalse, (h1.2.2.2 dbT task1 (by decide)).1⟩

end JobPortal
